import Mathlib

/-!
Verification of the power/wakeup coordination core of the i.MX8MP DWC3 USB
glue layer (drivers/usb/dwc3/dwc3-imx8mp.c).

The driver state (struct dwc3_imx8mp together with the fields of the child
dwc3 device that the glue reads) is embedded as a structure; the register
bank is the single 32-bit USB_WAKEUP_CTRL word, modelled as a Nat.  Each
operation returns the updated state together with the list of externally
visible effects it performed (register writes, clock toggles, resume
requests), in program order.
-/

namespace Dwc3Imx8mp

/-- BIT(31): global wakeup interrupt enable, also used to clear interrupt. -/
def USB_WAKEUP_EN : Nat := 2 ^ 31

/-- BIT(5): wakeup from connection or disconnection, only for superspeed. -/
def USB_WAKEUP_SS_CONN : Nat := 2 ^ 5

/-- BIT(4): 0 select vbus_valid, 1 select sessvld. -/
def USB_WAKEUP_VBUS_SRC_SESS_VAL : Nat := 2 ^ 4

/-- BIT(3): enable signal for wake up from u3 state. -/
def USB_WAKEUP_U3_EN : Nat := 2 ^ 3

/-- BIT(2): enable signal for wake up from id change. -/
def USB_WAKEUP_ID_EN : Nat := 2 ^ 2

/-- BIT(1): enable signal for wake up from vbus change. -/
def USB_WAKEUP_VBUS_EN : Nat := 2 ^ 1

/-- BIT(0): enable signal for wake up from dp/dm change. -/
def USB_WAKEUP_DPDM_EN : Nat := 2 ^ 0

/-- GENMASK(5, 0): the six wakeup source bits. -/
def USB_WAKEUP_EN_MASK : Nat := 63

/-- The value of dwc->current_dr_role that the glue inspects:
DWC3_GCTL_PRTCAP_HOST, DWC3_GCTL_PRTCAP_DEVICE, or DWC3_GCTL_PRTCAP_OTG
(the latter plays the role the design calls None: neither host nor device). -/
inductive DrRole where
  | host
  | device
  | otg
deriving DecidableEq, Repr

/-- Externally visible effects of one operation, in program order:
a writel to USB_WAKEUP_CTRL, clk_disable_unprepare(bus_clk),
clk_prepare_enable(bus_clk) (with its success), pm_runtime_resume of the
xhci child, pm_runtime_resume of the dwc3 (gadget) device. -/
inductive Effect where
  | writeCtrl (v : Nat)
  | clkDisable
  | clkEnable (ok : Bool)
  | resumeXhci
  | resumeDevice
deriving DecidableEq, Repr

/-- The glue instance state: the USB_WAKEUP_CTRL register content, the
pm_suspended flag, whether bus_clk is running, the platform wake
capability (device_may_wakeup), and the child dwc3 fields the glue reads
(whether dwc->xhci is non-null, and dwc->current_dr_role). -/
structure State where
  wakeup_ctrl : Nat
  pm_suspended : Bool
  bus_clk_on : Bool
  may_wakeup : Bool
  xhci : Bool
  role : DrRole
deriving DecidableEq, Repr

/-- The register transformation of dwc_imx8mp_wakeup_enable: read val,
OR in the host pattern if dwc->xhci is non-null, else the device pattern
if current_dr_role is DEVICE, else leave val unchanged. -/
def dwc_imx8mp_wakeup_enable_val (xhci : Bool) (role : DrRole) (val : Nat) : Nat :=
  if xhci = true then
    val ||| (USB_WAKEUP_EN ||| USB_WAKEUP_SS_CONN |||
             USB_WAKEUP_U3_EN ||| USB_WAKEUP_DPDM_EN)
  else if role = DrRole.device then
    val ||| (USB_WAKEUP_EN ||| USB_WAKEUP_VBUS_EN |||
             USB_WAKEUP_VBUS_SRC_SESS_VAL)
  else
    val

/-- dwc_imx8mp_wakeup_enable: one read-modify-write of USB_WAKEUP_CTRL.
The writel at the end of the C function is unconditional, so a writeCtrl
effect is emitted on every path, also when no bits were added. -/
def dwc_imx8mp_wakeup_enable (s : State) : State × List Effect :=
  let val := dwc_imx8mp_wakeup_enable_val s.xhci s.role s.wakeup_ctrl
  ({ s with wakeup_ctrl := val }, [Effect.writeCtrl val])

/-- The register transformation of dwc_imx8mp_wakeup_disable:
val &= ~(USB_WAKEUP_EN | USB_WAKEUP_EN_MASK), as a 32-bit operation. -/
def dwc_imx8mp_wakeup_disable_val (val : Nat) : Nat :=
  val &&& ((2 ^ 32 - 1) ^^^ (USB_WAKEUP_EN ||| USB_WAKEUP_EN_MASK))

/-- dwc_imx8mp_wakeup_disable: one read-modify-write of USB_WAKEUP_CTRL
clearing the global enable bit together with all six source bits. -/
def dwc_imx8mp_wakeup_disable (s : State) : State × List Effect :=
  let val := dwc_imx8mp_wakeup_disable_val s.wakeup_ctrl
  ({ s with wakeup_ctrl := val }, [Effect.writeCtrl val])

/-- dwc3_imx8mp_interrupt: if pm_suspended is false, return with no side
effect.  Otherwise disarm wakeup (clearing the irq), then runtime-resume
the xhci child if the role is HOST and dwc->xhci exists, else the gadget
device if the role is DEVICE, else nothing. -/
def dwc3_imx8mp_interrupt (s : State) : State × List Effect :=
  if s.pm_suspended = false then (s, [])
  else
    let sd := (dwc_imx8mp_wakeup_disable s).1
    let tr := (dwc_imx8mp_wakeup_disable s).2
    if s.role = DrRole.host ∧ s.xhci = true then
      (sd, tr ++ [Effect.resumeXhci])
    else if s.role = DrRole.device then
      (sd, tr ++ [Effect.resumeDevice])
    else
      (sd, tr)

/-- dwc3_imx8mp_suspend: no-op returning 0 if already suspended; otherwise
arm wakeup when the request is an autosuspend message or the device may
wake up, then disable bus_clk, set pm_suspended, and return 0.  The
result is (new state, (effect trace, return value)). -/
def dwc3_imx8mp_suspend (s : State) (msg_is_auto : Bool) :
    State × List Effect × Int :=
  if s.pm_suspended = true then (s, [], 0)
  else
    let armed :=
      if msg_is_auto = true ∨ s.may_wakeup = true then
        dwc_imx8mp_wakeup_enable s
      else (s, [])
    ({ armed.1 with bus_clk_on := false, pm_suspended := true },
     armed.2 ++ [Effect.clkDisable], 0)

/-- dwc3_imx8mp_resume: no-op returning 0 if not suspended; otherwise
clear pm_suspended, re-enable bus_clk (clk_ret is the environment-chosen
result of clk_prepare_enable: 0 on success), disarm wakeup, and return
the clock result. -/
def dwc3_imx8mp_resume (s : State) (clk_ret : Int) :
    State × List Effect × Int :=
  if s.pm_suspended = false then (s, [], 0)
  else
    let s1 : State :=
      { s with pm_suspended := false,
               bus_clk_on := if clk_ret = 0 then true else s.bus_clk_on }
    ((dwc_imx8mp_wakeup_disable s1).1,
     Effect.clkEnable (clk_ret == 0) :: (dwc_imx8mp_wakeup_disable s1).2,
     clk_ret)

/-- Register contents reachable from the quiescent all-zero image by any
sequence of wakeup_enable (with any xhci/role inputs) and wakeup_disable
register transformations. -/
inductive CtrlReachable : Nat → Prop where
  | quiescent : CtrlReachable 0
  | arm (xhci : Bool) (role : DrRole) {v : Nat} :
      CtrlReachable v → CtrlReachable (dwc_imx8mp_wakeup_enable_val xhci role v)
  | disarm {v : Nat} :
      CtrlReachable v → CtrlReachable (dwc_imx8mp_wakeup_disable_val v)

/-- A concrete state: host child present, quiescent register, active. -/
def sHost : State :=
  { wakeup_ctrl := 0, pm_suspended := false, bus_clk_on := true,
    may_wakeup := true, xhci := true, role := DrRole.host }

/-- A concrete state: device role, no host child, quiescent register. -/
def sDevice : State :=
  { wakeup_ctrl := 0, pm_suspended := false, bus_clk_on := true,
    may_wakeup := true, xhci := false, role := DrRole.device }

/-- A concrete state: no host child and role OTG (the design's None). -/
def sNone : State :=
  { wakeup_ctrl := 0, pm_suspended := false, bus_clk_on := true,
    may_wakeup := true, xhci := false, role := DrRole.otg }

/-- Claim C2: an interrupt delivered while pm_suspended is true first
performs the unconditional disarm write, then issues exactly one resume
request — to the xhci child when the role is Host and the xhci handle
exists, to the gadget device when the role is Device — and no resume
request at all when the role is neither or the host handle is absent. -/
theorem interrupt_when_suspended (s : State) (h : s.pm_suspended = true) :
    dwc3_imx8mp_interrupt s =
      ({ s with wakeup_ctrl := dwc_imx8mp_wakeup_disable_val s.wakeup_ctrl },
       Effect.writeCtrl (dwc_imx8mp_wakeup_disable_val s.wakeup_ctrl) ::
         (if s.role = DrRole.host ∧ s.xhci = true then [Effect.resumeXhci]
          else if s.role = DrRole.device then [Effect.resumeDevice]
          else [])) := by
  by_cases h1 : s.role = DrRole.host ∧ s.xhci = true
  · simp [dwc3_imx8mp_interrupt, dwc_imx8mp_wakeup_disable, h, h1]
  · by_cases h2 : s.role = DrRole.device
    · simp [dwc3_imx8mp_interrupt, dwc_imx8mp_wakeup_disable, h, h1, h2]
    · simp [dwc3_imx8mp_interrupt, dwc_imx8mp_wakeup_disable, h, h1, h2]

/-- Witness for C2 at a concrete suspended host state. -/
theorem interrupt_when_suspended_witness :
    dwc3_imx8mp_interrupt { sHost with pm_suspended := true } =
      ({ { sHost with pm_suspended := true } with
          wakeup_ctrl := dwc_imx8mp_wakeup_disable_val
            ({ sHost with pm_suspended := true } : State).wakeup_ctrl },
       Effect.writeCtrl (dwc_imx8mp_wakeup_disable_val
            ({ sHost with pm_suspended := true } : State).wakeup_ctrl) ::
         (if ({ sHost with pm_suspended := true } : State).role = DrRole.host ∧
             ({ sHost with pm_suspended := true } : State).xhci = true then
            [Effect.resumeXhci]
          else if ({ sHost with pm_suspended := true } : State).role =
              DrRole.device then [Effect.resumeDevice]
          else [])) :=
  interrupt_when_suspended { sHost with pm_suspended := true } rfl

/-- Claim C3: an interrupt delivered while pm_suspended is false is a pure
no-op: the state (register, flag, clocks) is unchanged and the effect
trace is empty — no disarm write, no resume request. -/
theorem interrupt_when_not_suspended (s : State) (h : s.pm_suspended = false) :
    dwc3_imx8mp_interrupt s = (s, []) := by
  simp [dwc3_imx8mp_interrupt, h]

/-- Witness for C3 at a concrete active host state. -/
theorem interrupt_when_not_suspended_witness :
    dwc3_imx8mp_interrupt sHost = (sHost, []) :=
  interrupt_when_not_suspended sHost rfl

/-- Claim C4: when bus-clock re-enable fails during resume from a
suspended state, the clock error is returned to the caller and
pm_suspended is nevertheless left false. -/
theorem resume_clk_fail (s : State) (r : Int) (hs : s.pm_suspended = true) :
    (dwc3_imx8mp_resume s r).2.2 = r ∧
    (dwc3_imx8mp_resume s r).1.pm_suspended = false := by
  simp [dwc3_imx8mp_resume, dwc_imx8mp_wakeup_disable, hs]

/-- Witness for C4 at a concrete suspended state and failing clock. -/
theorem resume_clk_fail_witness :
    (dwc3_imx8mp_resume { sDevice with pm_suspended := true } (-5)).2.2 = -5 ∧
    (dwc3_imx8mp_resume { sDevice with pm_suspended := true }
      (-5)).1.pm_suspended = false :=
  resume_clk_fail { sDevice with pm_suspended := true } (-5) rfl

/-- Claim C8: suspend is idempotent — after one suspend call, a second
call (with any message type) returns the same state untouched, performs
no effect (no re-arm, no second clock disable), and returns 0. -/
theorem suspend_idempotent (s : State) (a b : Bool) :
    dwc3_imx8mp_suspend (dwc3_imx8mp_suspend s a).1 b =
      ((dwc3_imx8mp_suspend s a).1, [], 0) := by
  by_cases h : s.pm_suspended = true <;>
    simp [dwc3_imx8mp_suspend, dwc_imx8mp_wakeup_enable, h]

/-- Claim C9: the host wakeup pattern is ORed in whenever the xhci handle
exists, regardless of the current role; the device pattern is ORed in
only when no xhci handle exists and the role is Device; with no xhci
handle and a non-Device role the register value is unchanged. -/
theorem wakeup_enable_role_selection (s : State) :
    (s.xhci = true →
      (dwc_imx8mp_wakeup_enable s).1.wakeup_ctrl =
        (s.wakeup_ctrl ||| (USB_WAKEUP_EN ||| USB_WAKEUP_SS_CONN |||
          USB_WAKEUP_U3_EN ||| USB_WAKEUP_DPDM_EN))) ∧
    (s.xhci = false → s.role = DrRole.device →
      (dwc_imx8mp_wakeup_enable s).1.wakeup_ctrl =
        (s.wakeup_ctrl ||| (USB_WAKEUP_EN ||| USB_WAKEUP_VBUS_EN |||
          USB_WAKEUP_VBUS_SRC_SESS_VAL))) ∧
    (s.xhci = false → s.role ≠ DrRole.device →
      (dwc_imx8mp_wakeup_enable s).1.wakeup_ctrl = s.wakeup_ctrl) := by
  refine ⟨fun hx => ?_, fun hx hr => ?_, fun hx hr => ?_⟩
  · simp [dwc_imx8mp_wakeup_enable, dwc_imx8mp_wakeup_enable_val, hx]
  · simp [dwc_imx8mp_wakeup_enable, dwc_imx8mp_wakeup_enable_val, hx, hr]
  · simp [dwc_imx8mp_wakeup_enable, dwc_imx8mp_wakeup_enable_val, hx, hr]

/-- Witness for C9: a host handle with a non-host role still selects the
host pattern. -/
theorem wakeup_enable_role_selection_witness :
    (dwc_imx8mp_wakeup_enable { sHost with role := DrRole.otg }).1.wakeup_ctrl =
      (({ sHost with role := DrRole.otg } : State).wakeup_ctrl |||
        (USB_WAKEUP_EN ||| USB_WAKEUP_SS_CONN |||
          USB_WAKEUP_U3_EN ||| USB_WAKEUP_DPDM_EN)) :=
  (wakeup_enable_role_selection { sHost with role := DrRole.otg }).1 rfl

/-- Claim C10: dwc3_imx8mp_suspend returns 0 on every execution path, for
every state and message type. -/
theorem suspend_returns_zero (s : State) (a : Bool) :
    (dwc3_imx8mp_suspend s a).2.2 = 0 := by
  by_cases h : s.pm_suspended = true <;>
    simp [dwc3_imx8mp_suspend, h]

/-- Claim C1 counterexample: wakeup_enable is a read-modify-write OR, so
from a prior register state with the id-change bit set, arm with a host
child leaves that extra bit set — the result is not exactly the host
pattern. -/
theorem wakeup_enable_exact_bits_cex :
    (dwc_imx8mp_wakeup_enable
        { sHost with wakeup_ctrl := USB_WAKEUP_ID_EN }).1.wakeup_ctrl ≠
      (USB_WAKEUP_EN ||| USB_WAKEUP_SS_CONN |||
        USB_WAKEUP_U3_EN ||| USB_WAKEUP_DPDM_EN) := by
  decide

/-- Claim C1 (amended): starting from the quiescent all-zero register,
arm with a host child leaves exactly {global-enable, superspeed-connect,
U3-exit, dp/dm-change} set, and arm with no host child in Device role
leaves exactly {global-enable, vbus-change, vbus-source-select} set; from
a non-zero prior state the pattern is ORed into the existing bits. -/
theorem wakeup_enable_exact_from_quiescent (s : State) (h0 : s.wakeup_ctrl = 0) :
    (s.xhci = true →
      (dwc_imx8mp_wakeup_enable s).1.wakeup_ctrl =
        (USB_WAKEUP_EN ||| USB_WAKEUP_SS_CONN |||
          USB_WAKEUP_U3_EN ||| USB_WAKEUP_DPDM_EN)) ∧
    (s.xhci = false → s.role = DrRole.device →
      (dwc_imx8mp_wakeup_enable s).1.wakeup_ctrl =
        (USB_WAKEUP_EN ||| USB_WAKEUP_VBUS_EN |||
          USB_WAKEUP_VBUS_SRC_SESS_VAL)) := by
  constructor
  · intro hx
    simp [dwc_imx8mp_wakeup_enable, dwc_imx8mp_wakeup_enable_val, h0, hx]
  · intro hx hr
    simp [dwc_imx8mp_wakeup_enable, dwc_imx8mp_wakeup_enable_val, h0, hx, hr]

/-- Witness for the amended C1 at the concrete quiescent host state. -/
theorem wakeup_enable_exact_from_quiescent_witness :
    (dwc_imx8mp_wakeup_enable sHost).1.wakeup_ctrl =
      (USB_WAKEUP_EN ||| USB_WAKEUP_SS_CONN |||
        USB_WAKEUP_U3_EN ||| USB_WAKEUP_DPDM_EN) :=
  (wakeup_enable_exact_from_quiescent sHost rfl).1 rfl

/-- Any value whose bits lie within the wakeup field is annihilated by
the disarm mask. -/
theorem land_field_comp_zero {v : Nat}
    (hv : v &&& (USB_WAKEUP_EN ||| USB_WAKEUP_EN_MASK) = v) :
    v &&& ((2 ^ 32 - 1) ^^^ (USB_WAKEUP_EN ||| USB_WAKEUP_EN_MASK)) = 0 := by
  conv_lhs => rw [← hv]
  rw [Nat.and_assoc,
      show (USB_WAKEUP_EN ||| USB_WAKEUP_EN_MASK) &&&
          ((2 ^ 32 - 1) ^^^ (USB_WAKEUP_EN ||| USB_WAKEUP_EN_MASK)) = 0 by decide,
      Nat.and_zero]

/-- ORing a pattern that the disarm mask annihilates into a value within
the wakeup field still yields zero under the disarm mask. -/
theorem land_or_field_comp_zero {v p : Nat}
    (hv : v &&& (USB_WAKEUP_EN ||| USB_WAKEUP_EN_MASK) = v)
    (hp : p &&& ((2 ^ 32 - 1) ^^^ (USB_WAKEUP_EN ||| USB_WAKEUP_EN_MASK)) = 0) :
    (v ||| p) &&& ((2 ^ 32 - 1) ^^^ (USB_WAKEUP_EN ||| USB_WAKEUP_EN_MASK)) = 0 := by
  rw [Nat.and_distrib_right, hp, Nat.or_zero, land_field_comp_zero hv]

/-- Claim C5 counterexample: the disarm write clears only the wakeup
field, so a prior register content with bit 6 set (outside the defined
wakeup bits) survives an arm/disarm round trip — the register is not
all-zero afterwards. -/
theorem arm_disarm_roundtrip_cex :
    (dwc_imx8mp_wakeup_disable
        (dwc_imx8mp_wakeup_enable
          { sHost with wakeup_ctrl := 64 }).1).1.wakeup_ctrl ≠ 0 := by
  decide

/-- Claim C5 (amended): for every role and every prior register content
whose set bits all lie within the wakeup field (global-enable plus the
six source bits), arm followed immediately by disarm returns the
register to the all-zero quiescent image; bits outside that field are
preserved, not cleared. -/
theorem arm_disarm_roundtrip (s : State)
    (h : s.wakeup_ctrl &&& (USB_WAKEUP_EN ||| USB_WAKEUP_EN_MASK) = s.wakeup_ctrl) :
    (dwc_imx8mp_wakeup_disable
      (dwc_imx8mp_wakeup_enable s).1).1.wakeup_ctrl = 0 := by
  show dwc_imx8mp_wakeup_disable_val
      (dwc_imx8mp_wakeup_enable_val s.xhci s.role s.wakeup_ctrl) = 0
  unfold dwc_imx8mp_wakeup_enable_val dwc_imx8mp_wakeup_disable_val
  split
  · exact land_or_field_comp_zero h (by decide)
  · split
    · exact land_or_field_comp_zero h (by decide)
    · exact land_field_comp_zero h

/-- Witness for the amended C5 at the concrete quiescent host state. -/
theorem arm_disarm_roundtrip_witness :
    (dwc_imx8mp_wakeup_disable
      (dwc_imx8mp_wakeup_enable sHost).1).1.wakeup_ctrl = 0 :=
  arm_disarm_roundtrip sHost (by decide)

/-- Claim C6 counterexample: with no host child and a non-Device role,
wakeup_enable still executes its final writel — the effect trace contains
a control-register write, so "performs no write" fails. -/
theorem wakeup_enable_none_write_cex :
    sNone.xhci = false ∧ sNone.role ≠ DrRole.device ∧
    (dwc_imx8mp_wakeup_enable sNone).2 ≠ ([] : List Effect) := by
  decide

/-- Claim C6 (amended): with no host child and a non-Device role,
wakeup_enable adds no bits — it writes back the value it just read, so
the register content and the whole state are unchanged and the operation
completes successfully as a state-level no-op. -/
theorem wakeup_enable_none_noop (s : State) (hx : s.xhci = false)
    (hr : s.role ≠ DrRole.device) :
    (dwc_imx8mp_wakeup_enable s).1 = s ∧
    (dwc_imx8mp_wakeup_enable s).2 = [Effect.writeCtrl s.wakeup_ctrl] := by
  have hval : dwc_imx8mp_wakeup_enable_val s.xhci s.role s.wakeup_ctrl =
      s.wakeup_ctrl := by
    simp [dwc_imx8mp_wakeup_enable_val, hx, hr]
  constructor
  · show ({ s with wakeup_ctrl :=
        dwc_imx8mp_wakeup_enable_val s.xhci s.role s.wakeup_ctrl } : State) = s
    rw [hval]
  · show [Effect.writeCtrl
        (dwc_imx8mp_wakeup_enable_val s.xhci s.role s.wakeup_ctrl)] = _
    rw [hval]

/-- Witness for the amended C6 at the concrete role-None state. -/
theorem wakeup_enable_none_noop_witness :
    (dwc_imx8mp_wakeup_enable sNone).1 = sNone ∧
    (dwc_imx8mp_wakeup_enable sNone).2 =
      [Effect.writeCtrl sNone.wakeup_ctrl] :=
  wakeup_enable_none_noop sNone rfl (by decide)

/-- Every register content reachable from the quiescent image is one of
the four values: zero, the host pattern, the device pattern, or their
union. -/
theorem ctrlReachable_cases {v : Nat} (h : CtrlReachable v) :
    v = 0 ∨
    v = (USB_WAKEUP_EN ||| USB_WAKEUP_SS_CONN |||
          USB_WAKEUP_U3_EN ||| USB_WAKEUP_DPDM_EN) ∨
    v = (USB_WAKEUP_EN ||| USB_WAKEUP_VBUS_EN |||
          USB_WAKEUP_VBUS_SRC_SESS_VAL) ∨
    v = (USB_WAKEUP_EN ||| USB_WAKEUP_SS_CONN |||
          USB_WAKEUP_U3_EN ||| USB_WAKEUP_DPDM_EN |||
          USB_WAKEUP_VBUS_EN ||| USB_WAKEUP_VBUS_SRC_SESS_VAL) := by
  induction h with
  | quiescent => exact Or.inl rfl
  | arm xhci role hv ih =>
      rcases ih with h | h | h | h <;> subst h <;>
        cases xhci <;> cases role <;> decide
  | disarm hv ih =>
      rcases ih with h | h | h | h <;> subst h <;> decide

/-- Claim C7: in every register state reachable from the quiescent image
by arm/disarm sequences, the global enable bit is set whenever any
source bit is set, and the disarm transformation yields the all-zero
image (clearing the global enable together with all source bits). -/
theorem wakeup_ctrl_invariant (v : Nat) (h : CtrlReachable v) :
    (v &&& USB_WAKEUP_EN_MASK ≠ 0 → v &&& USB_WAKEUP_EN = USB_WAKEUP_EN) ∧
    dwc_imx8mp_wakeup_disable_val v = 0 := by
  rcases ctrlReachable_cases h with h | h | h | h <;> subst h <;>
    exact (by decide)

/-- Witness for C7 at the reachable host-pattern register value. -/
theorem wakeup_ctrl_invariant_witness :
    ((USB_WAKEUP_EN ||| USB_WAKEUP_SS_CONN |||
        USB_WAKEUP_U3_EN ||| USB_WAKEUP_DPDM_EN) &&&
        USB_WAKEUP_EN_MASK ≠ 0 →
      (USB_WAKEUP_EN ||| USB_WAKEUP_SS_CONN |||
        USB_WAKEUP_U3_EN ||| USB_WAKEUP_DPDM_EN) &&&
        USB_WAKEUP_EN = USB_WAKEUP_EN) ∧
    dwc_imx8mp_wakeup_disable_val
      (USB_WAKEUP_EN ||| USB_WAKEUP_SS_CONN |||
        USB_WAKEUP_U3_EN ||| USB_WAKEUP_DPDM_EN) = 0 :=
  wakeup_ctrl_invariant _
    ((show dwc_imx8mp_wakeup_enable_val true DrRole.host 0 =
        (USB_WAKEUP_EN ||| USB_WAKEUP_SS_CONN |||
          USB_WAKEUP_U3_EN ||| USB_WAKEUP_DPDM_EN) by decide) ▸
      CtrlReachable.arm true DrRole.host CtrlReachable.quiescent)

end Dwc3Imx8mp
